import Mathlib

/-!
Verification development for the Linux route descriptor and the VPP
punt-to-host descriptor of a declarative network-configuration agent.

The descriptors' own code (validation, equivalence comparison, CRUD entry
points, failure classification, dump collection) is embedded directly from
the source.  The Go standard library `net` parsing functions and the
`cn-infra` address utility the source calls are external collaborators whose
code is not part of the repository; they are modelled from their documented
behaviour, as marked on each definition.
-/

/-! ### Character model for Go string parsing

Go's address parsers distinguish only decimal digits, hexadecimal letters
(case-insensitively) and a few separator characters; every other character
behaves the same (it terminates or fails a parse).  We therefore classify
characters into tokens and let the parsers work on token lists.
-/

/-- A character as seen by Go's `net` parsers: a decimal digit with its value,
a hexadecimal letter with its value offset (0–5 for `a`–`f`/`A`–`F`), one of
the separator characters, or any other character. -/
inductive CharTok where
  | dec (n : Nat)
  | hexL (n : Nat)
  | dot
  | colon
  | slash
  | percent
  | other
  deriving DecidableEq

/-- Classification of a code point: `0`–`9` (48–57) are decimal digits,
`a`–`f` (97–102) and `A`–`F` (65–70) hexadecimal letters, and 46, 58, 47, 37
are `.`, `:`, `/`, `%`. -/
def classifyN (n : Nat) : CharTok :=
  if 48 ≤ n ∧ n ≤ 57 then .dec (n - 48)
  else if 97 ≤ n ∧ n ≤ 102 then .hexL (n - 97)
  else if 65 ≤ n ∧ n ≤ 70 then .hexL (n - 65)
  else if n = 46 then .dot
  else if n = 58 then .colon
  else if n = 47 then .slash
  else if n = 37 then .percent
  else .other

/-- Classify one character the way Go's `net` parsers read it. -/
def classify (c : Char) : CharTok := classifyN c.toNat

/-- Token list of a Go string. -/
def strToks (s : String) : List CharTok := s.data.map classify

/-- Modelled from the spec: ASCII lower-casing of Go `strings.ToLower`
(address strings are ASCII; non-ASCII characters are left unchanged). -/
def goToLower (s : String) : String := String.mk (s.data.map Char.toLower)

def CharTok.isHexDigit : CharTok → Bool
  | .dec _ => true
  | .hexL _ => true
  | _ => false

def CharTok.hexDigitVal : CharTok → Nat
  | .dec n => n
  | .hexL n => n + 10
  | _ => 0

def CharTok.isDecDigit : CharTok → Bool
  | .dec _ => true
  | _ => false

def CharTok.decDigitVal : CharTok → Nat
  | .dec n => n
  | _ => 0

/-- Split a token list on a separator token (the separators themselves are
dropped; empty runs give empty groups, as Go's field-by-field parsers see). -/
def splitOnTok (sep : CharTok) : List CharTok → List (List CharTok)
  | [] => [[]]
  | t :: ts =>
    if t = sep then [] :: splitOnTok sep ts
    else
      match splitOnTok sep ts with
      | [] => [[t]]
      | g :: gs => (t :: g) :: gs

/-- Decimal value of a digit-token list (Go `dtoi` accumulation). -/
def decTokVal (g : List CharTok) : Nat :=
  g.foldl (fun acc t => acc * 10 + t.decDigitVal) 0

/-- Hexadecimal value of a digit-token list (Go `xtoi` accumulation). -/
def hexToksVal (g : List CharTok) : Nat :=
  g.foldl (fun acc t => acc * 16 + t.hexDigitVal) 0

/-- The 12-byte heading that Go's 16-byte representation of an IPv4 address
starts with (`v4InV6`). -/
def v4InV6Head : List Nat := [0, 0, 0, 0, 0, 0, 0, 0, 0, 0, 255, 255]

/-- Modelled from the spec: one dotted-decimal field of Go `net.parseIPv4` —
a non-empty run of decimal digits with value at most 255. -/
def v4Field? (g : List CharTok) : Option Nat :=
  if g ≠ [] ∧ g.all CharTok.isDecDigit ∧ decTokVal g ≤ 255 then some (decTokVal g)
  else none

/-- Modelled from the spec: Go `net.parseIPv4` — four dot-separated decimal
fields, returned in Go's 16-byte form. -/
def parseIPv4T (s : List CharTok) : Option (List Nat) :=
  match splitOnTok .dot s with
  | [a, b, c, d] =>
    match v4Field? a, v4Field? b, v4Field? c, v4Field? d with
    | some x1, some x2, some x3, some x4 => some (v4InV6Head ++ [x1, x2, x3, x4])
    | _, _, _, _ => none
  | _ => none

/-- Post-loop completion of Go `net.parseIPv6`: expand the `::` ellipsis (if
any) with zero bytes, requiring exactly 16 bytes in total. -/
def parseIPv6Finish (bytes : List Nat) (ell : Option Nat) : Option (List Nat) :=
  if bytes.length < 16 then
    match ell with
    | none => none
    | some e => some (bytes.take e ++ List.replicate (16 - bytes.length) 0 ++ bytes.drop e)
  else
    match ell with
    | none => if bytes.length = 16 then some bytes else none
    | some _ => none

/-- Modelled from the spec: the group loop of Go `net.parseIPv6`.  `bytes` are
the bytes filled so far, `ell` the position of a `::` ellipsis already seen.
Each iteration consumes one hexadecimal group (or a trailing embedded
dotted-decimal IPv4 address) and its following separator. -/
def parseIPv6Loop : Nat → List CharTok → List Nat → Option Nat → Option (List Nat)
  | 0, _, _, _ => none
  | fuel + 1, s, bytes, ell =>
    if 16 ≤ bytes.length then none
    else
      let digits := s.takeWhile CharTok.isHexDigit
      let rest := s.dropWhile CharTok.isHexDigit
      if digits.isEmpty then none
      else if 65535 < hexToksVal digits then none
      else if rest.head? = some .dot then
        if (ell.isSome ∨ bytes.length = 12) ∧ bytes.length + 4 ≤ 16 then
          match parseIPv4T s with
          | some ip4 => parseIPv6Finish (bytes ++ ip4.drop 12) ell
          | none => none
        else none
      else
        let bytes' := bytes ++ [hexToksVal digits / 256, hexToksVal digits % 256]
        match rest with
        | [] => parseIPv6Finish bytes' ell
        | .colon :: rest2 =>
          match rest2 with
          | [] => none
          | .colon :: rest3 =>
            if ell.isSome then none
            else if rest3 = [] then parseIPv6Finish bytes' (some bytes'.length)
            else parseIPv6Loop fuel rest3 bytes' (some bytes'.length)
          | _ => parseIPv6Loop fuel rest2 bytes' ell
        | _ => none

/-- Modelled from the spec: Go `net.parseIPv6` (without zone), on tokens.
A leading `::` sets the ellipsis before the group loop starts. -/
def parseIPv6T (s : List CharTok) : Option (List Nat) :=
  match s with
  | .colon :: .colon :: rest =>
    if rest = [] then some (List.replicate 16 0)
    else parseIPv6Loop 8 rest [] (some 0)
  | _ => parseIPv6Loop 8 s [] none

/-- The first `.`/`:` decides between the IPv4 and the IPv6 parser
(the dispatch loop of Go `net.ParseIP`). -/
def ipDispatchT : List CharTok → Option Bool
  | [] => none
  | .dot :: _ => some true
  | .colon :: _ => some false
  | _ :: rest => ipDispatchT rest

def lastPercentIdxAux : List CharTok → Nat → Option Nat → Option Nat
  | [], _, acc => acc
  | t :: ts, i, acc => lastPercentIdxAux ts (i + 1) (if t = .percent then some i else acc)

/-- Modelled from the spec: Go `net.splitHostZone` — cut off a `%zone` suffix
at the last `%`, provided it is not the leading character. -/
def stripZone (s : List CharTok) : List CharTok :=
  match lastPercentIdxAux s 0 none with
  | some i => if 0 < i then s.take i else s
  | none => s

/-- Modelled from the spec: Go `net.ParseIP`, on tokens. -/
def parseIPT (s : List CharTok) : Option (List Nat) :=
  match ipDispatchT s with
  | some true => parseIPv4T s
  | some false => parseIPv6T (stripZone s)
  | none => none

/-- Split a token list at the first slash (Go `net.ParseCIDR`'s address/mask
split). -/
def splitFirstSlash : List CharTok → Option (List CharTok × List CharTok)
  | [] => none
  | .slash :: rest => some ([], rest)
  | t :: rest => (splitFirstSlash rest).map (fun p => (t :: p.1, p.2))

/-- The numeric text after the slash of a CIDR literal: a non-empty run of
decimal digits (Go `dtoi` consuming the whole remainder). -/
def maskWord? (g : List CharTok) : Option Nat :=
  if g ≠ [] ∧ g.all CharTok.isDecDigit then some (decTokVal g) else none

/-- Modelled from the spec: Go `net.CIDRMask` — `bitsTotal/8` bytes holding
`ones` leading one-bits. -/
def cidrMask (ones bitsTotal : Nat) : List Nat :=
  (List.range (bitsTotal / 8)).map fun j => 256 - 2 ^ (8 - min 8 (ones - 8 * j))

/-- An IP network as Go's `net.IPNet`: the masked network address and the mask. -/
structure IPNet where
  ip : List Nat
  mask : List Nat
  deriving DecidableEq

/-- Modelled from the spec: Go `IP.Mask` — align a 4-byte mask with a 16-byte
IPv4-in-IPv6 address (and vice versa), then intersect bytewise. -/
def ipMask (mask ip : List Nat) : List Nat :=
  let mask' :=
    if mask.length = 16 ∧ ip.length = 4 ∧ mask.take 12 = List.replicate 12 255 then mask.drop 12
    else mask
  let ip' :=
    if mask'.length = 4 ∧ ip.length = 16 ∧ ip.take 12 = v4InV6Head then ip.drop 12
    else ip
  if ip'.length = mask'.length then List.zipWith Nat.land ip' mask' else []

/-- Modelled from the spec: Go `net.ParseCIDR`, on tokens.  Returns the
network (masked address plus mask); the mask length follows the family of the
address text. -/
def parseCIDRT (s : List CharTok) : Option IPNet :=
  match splitFirstSlash s with
  | none => none
  | some (addr, maskTxt) =>
    let p :=
      match parseIPv4T addr with
      | some ip => (some ip, 4)
      | none => (parseIPv6T addr, 16)
    match p.1, maskWord? maskTxt with
    | some ip, some n =>
      if n ≤ 8 * p.2 then some ⟨ipMask (cidrMask n (8 * p.2)) ip, cidrMask n (8 * p.2)⟩
      else none
    | _, _ => none

/-- Go `net.ParseIP` on a string. -/
def parseIP (s : String) : Option (List Nat) := parseIPT (strToks s)

/-- Go `net.ParseCIDR` on a string (only the network part, which is all the
descriptor uses). -/
def parseCIDR (s : String) : Option IPNet := parseCIDRT (strToks s)

/-- Modelled from the spec: Go `IP.Equal` — bytewise equality, treating an
IPv4 address and its IPv4-in-IPv6 form as equal. -/
def ipEqual (a b : List Nat) : Bool :=
  if a.length = b.length then a == b
  else if a.length = 4 ∧ b.length = 16 then b.take 12 == v4InV6Head && a == b.drop 12
  else if a.length = 16 ∧ b.length = 4 then a.take 12 == v4InV6Head && b == a.drop 12
  else false

/-- Go `net.IPv4zero` in 16-byte form. -/
def ipv4Zero : List Nat := v4InV6Head ++ [0, 0, 0, 0]

/-- Go `net.IPv6unspecified`. -/
def ipv6Unspecified : List Nat := List.replicate 16 0

/-- Modelled from the spec: Go `IP.IsUnspecified` — equal to `0.0.0.0` or to
`::`. -/
def ipIsUnspecified (ip : List Nat) : Bool :=
  ipEqual ip ipv4Zero || ipEqual ip ipv6Unspecified

/-- Modelled from the spec: `cn-infra` `addrs.IsIPv6` — an address (or
network) string is IPv6 exactly when it contains a colon; the error it
returns for unrecognisable strings is ignored by the caller, which then gets
`false`. -/
def isIPv6Str (s : String) : Bool := s.data.contains ':'

/-! ### Linux route model (`l3.StaticRoute`) and comparison utilities -/

/-- `l3.StaticRoute_Scope`: the proto scope enum of a Linux static route. -/
inductive StaticRouteScope where
  | UNDEFINED
  | GLOBAL
  | SITE
  | LINK
  | HOST
  deriving DecidableEq

/-- `l3.StaticRoute`: the northbound value of one Linux route. -/
structure StaticRoute where
  OutgoingInterface : String
  DstNetwork : String
  GwAddr : String
  Scope : StaticRouteScope
  Metric : Nat
  deriving DecidableEq

/-- IP address matching any IPv4 destination. -/
def ipv4AddrAny : String := "0.0.0.0"

/-- IP address matching any IPv6 destination. -/
def ipv6AddrAny : String := "::"

/-- Dependency label for the outgoing interface of a route. -/
def routeOutInterfaceDep : String := "interface"

/-- Dependency label for gateway reachability of a route. -/
def routeGwReachabilityDep : String := "gw-reachability"

/-- `equalAddrs`: compare two IP address strings for equality; if parsing
fails, compare them as lower-cased strings. -/
def equalAddrs (addr1 addr2 : String) : Bool :=
  match parseIP addr1, parseIP addr2 with
  | some a1, some a2 => ipEqual a1 a2
  | _, _ => goToLower addr1 == goToLower addr2

/-- `equalNetworks`: compare two IP network strings for equality; if parsing
fails, compare them as lower-cased strings. -/
def equalNetworks (net1 net2 : String) : Bool :=
  match parseCIDR net1, parseCIDR net2 with
  | some n1, some n2 => ipEqual n1.ip n2.ip && n1.mask == n2.mask
  | _, _ => goToLower net1 == goToLower net2

/-- `getGwAddr`: the gateway address chosen in the given route, defaulting an
undefined gateway to the all-zeros address of the destination's IP family. -/
def getGwAddr (route : StaticRoute) : String :=
  if route.GwAddr = "" then
    if isIPv6Str route.DstNetwork then ipv6AddrAny else ipv4AddrAny
  else route.GwAddr

/-- `RouteDescriptor.EquivalentRoutes`: case-insensitive comparison function
for `l3.StaticRoute` — plain attributes compared as usual, addresses compared
as parsed IP addresses/networks. -/
def EquivalentRoutes (_key : String) (oldRoute newRoute : StaticRoute) : Bool :=
  if oldRoute.OutgoingInterface ≠ newRoute.OutgoingInterface ∨
      oldRoute.Scope ≠ newRoute.Scope ∨ oldRoute.Metric ≠ newRoute.Metric then false
  else if equalNetworks oldRoute.DstNetwork newRoute.DstNetwork then
    equalAddrs (getGwAddr oldRoute) (getGwAddr newRoute)
  else false

/-! ### Errors

Go compares descriptor errors by identity against sentinel error values.
The model is a closed error type: the declared sentinels of both descriptors,
the structured errors `updateRoute` builds with `errors.Errorf`, and
`unknownErr`, standing for any freshly constructed error distinct from every
sentinel. -/

inductive GoError where
  | ErrRouteWithoutInterface
  | ErrRouteWithoutDestination
  | ErrRouteWithUndefinedScope
  | ErrRouteWithInvalidDst
  | ErrRouteWithInvalidGw
  | ErrRouteLinkWithGw
  | ErrPuntWithoutL3Protocol
  | ErrPuntWithoutL4Protocol
  | ErrPuntWithoutPort
  | ifaceMetaMissing (ifName : String)
  | nsSwitchWrap (cause : GoError)
  | actionWrap (actionName : String) (cause : GoError)
  | unknownErr (id : Nat)
  deriving DecidableEq

deriving instance DecidableEq for Except

/-- The route descriptor's list of non-retriable errors. -/
def nonRetriableErrs : List GoError :=
  [.ErrRouteWithoutInterface, .ErrRouteWithoutDestination, .ErrRouteWithUndefinedScope,
   .ErrRouteWithInvalidDst, .ErrRouteWithInvalidGw, .ErrRouteLinkWithGw]

/-- The punt-to-host descriptor's list of non-retriable errors (declared
locally inside its `IsRetriableFailure`). -/
def puntNonRetriable : List GoError :=
  [.ErrPuntWithoutL3Protocol, .ErrPuntWithoutL4Protocol, .ErrPuntWithoutPort]

namespace RouteDescriptor

/-- `RouteDescriptor.IsRetriableFailure`: `false` exactly when the error is
one of the declared non-retriable sentinels (the source's loop over
`nonRetriableErrs`). -/
def IsRetriableFailure (err : GoError) : Bool :=
  !(nonRetriableErrs.contains err)

end RouteDescriptor

/-! ### Netlink-level route representation and the external environment -/

inductive NetlinkScope where
  | SCOPE_UNIVERSE
  | SCOPE_HOST
  | SCOPE_LINK
  | SCOPE_SITE
  deriving DecidableEq

/-- The fields of `netlink.Route` that `updateRoute` fills in. -/
structure NetlinkRoute where
  LinkIndex : Int
  Dst : Option IPNet
  Gw : Option (List Nat)
  Scope : NetlinkScope
  Priority : Int
  deriving DecidableEq

/-- `rtScopeFromNBToNetlink`: convert the NB scope to the netlink constant;
any other value (`UNDEFINED`) is the undefined-scope error. -/
def rtScopeFromNBToNetlink : StaticRouteScope → Except GoError NetlinkScope
  | .GLOBAL => .ok .SCOPE_UNIVERSE
  | .HOST => .ok .SCOPE_HOST
  | .LINK => .ok .SCOPE_LINK
  | .SITE => .ok .SCOPE_SITE
  | .UNDEFINED => .error .ErrRouteWithUndefinedScope

/-- Interface metadata from the interface index (`LookupByName`); the
namespace reference is kept as an opaque tag, it is only forwarded to the
namespace plugin. -/
structure IfMeta where
  LinuxIfIndex : Int
  Namespace : String
  deriving DecidableEq

/-- The external collaborators `updateRoute` touches: the read-only interface
index, the namespace switch, and the three netlink operations.  Each returns
`none` for success or the error the collaborator produced. -/
structure RouteEnv where
  lookupByName : String → Option IfMeta
  switchErr : String → Option GoError
  addResult : NetlinkRoute → Option GoError
  delResult : NetlinkRoute → Option GoError
  replaceResult : NetlinkRoute → Option GoError

/-- One access to an external resource, recorded in order. -/
inductive ResourceCall where
  | ifLookup (ifName : String)
  | nsSwitch (ns : String)
  | netlinkOp (actionName : String) (route : NetlinkRoute)
  | nsRevert (ns : String)
  deriving DecidableEq

namespace RouteDescriptor

/-- `updateRoute`: validate, look up interface metadata, build the netlink
route, switch namespace, run the netlink action.  Returns the result together
with the ordered list of external resource accesses performed. -/
def updateRoute (env : RouteEnv) (route : StaticRoute) (actionName : String)
    (actionClb : NetlinkRoute → Option GoError) :
    Except GoError Unit × List ResourceCall :=
  if route.OutgoingInterface = "" then (.error .ErrRouteWithoutInterface, [])
  else if route.DstNetwork = "" then (.error .ErrRouteWithoutDestination, [])
  else if route.Scope = .LINK ∧ route.GwAddr ≠ "" then (.error .ErrRouteLinkWithGw, [])
  else
    match env.lookupByName route.OutgoingInterface with
    | none =>
      (.error (.ifaceMetaMissing route.OutgoingInterface), [.ifLookup route.OutgoingInterface])
    | some ifMeta =>
      match parseCIDR route.DstNetwork with
      | none => (.error .ErrRouteWithInvalidDst, [.ifLookup route.OutgoingInterface])
      | some dstNet =>
        let gwParsed : Except GoError (Option (List Nat)) :=
          if route.GwAddr ≠ "" then
            match parseIP route.GwAddr with
            | none => .error .ErrRouteWithInvalidGw
            | some gw => .ok (some gw)
          else .ok none
        match gwParsed with
        | .error e => (.error e, [.ifLookup route.OutgoingInterface])
        | .ok gw =>
          match rtScopeFromNBToNetlink route.Scope with
          | .error e => (.error e, [.ifLookup route.OutgoingInterface])
          | .ok scope =>
            let netlinkRoute : NetlinkRoute :=
              { LinkIndex := ifMeta.LinuxIfIndex, Dst := some dstNet, Gw := gw,
                Scope := scope, Priority := Int.ofNat route.Metric }
            match env.switchErr ifMeta.Namespace with
            | some e =>
              (.error (.nsSwitchWrap e),
               [.ifLookup route.OutgoingInterface, .nsSwitch ifMeta.Namespace])
            | none =>
              match actionClb netlinkRoute with
              | some e =>
                (.error (.actionWrap actionName e),
                 [.ifLookup route.OutgoingInterface, .nsSwitch ifMeta.Namespace,
                  .netlinkOp actionName netlinkRoute, .nsRevert ifMeta.Namespace])
              | none =>
                (.ok (),
                 [.ifLookup route.OutgoingInterface, .nsSwitch ifMeta.Namespace,
                  .netlinkOp actionName netlinkRoute, .nsRevert ifMeta.Namespace])

/-- `RouteDescriptor.Add` (the metadata it returns is always nil and is
omitted). -/
def Add (env : RouteEnv) (_key : String) (route : StaticRoute) :
    Except GoError Unit × List ResourceCall :=
  updateRoute env route "add" env.addResult

/-- `RouteDescriptor.Delete`. -/
def Delete (env : RouteEnv) (_key : String) (route : StaticRoute) (_metadata : Unit) :
    Except GoError Unit × List ResourceCall :=
  updateRoute env route "delete" env.delResult

/-- `RouteDescriptor.Modify`: applies `updateRoute` to the new value with the
replace operation. -/
def Modify (env : RouteEnv) (_key : String) (_oldRoute newRoute : StaticRoute)
    (_oldMetadata : Unit) : Except GoError Unit × List ResourceCall :=
  updateRoute env newRoute "replace" env.replaceResult

end RouteDescriptor

/-! ### Dependencies -/

/-- The satisfaction condition of one declared dependency.  A concrete
required key is kept structurally (`ifaceState` stands for the interface
state key of the named interface with the given up flag); the `AnyOf`
predicate of gateway reachability is captured by the data the closure closes
over: the parsed gateway address and the outgoing interface name. -/
inductive DepCondition where
  | ifaceState (ifName : String) (isUp : Bool)
  | anyOfGwReachable (gwAddr : List Nat) (outIface : String)
  deriving DecidableEq

/-- One declared dependency: a label and its satisfaction condition. -/
structure Dependency where
  Label : String
  cond : DepCondition
  deriving DecidableEq

namespace RouteDescriptor

/-- `RouteDescriptor.Dependencies`: the outgoing interface must exist and be
up; a defined, non-unspecified gateway must be reachable. -/
def Dependencies (_key : String) (route : StaticRoute) : List Dependency :=
  (if route.OutgoingInterface ≠ "" then
    [⟨routeOutInterfaceDep, .ifaceState route.OutgoingInterface true⟩]
   else [])
  ++
  (match parseIP (getGwAddr route) with
   | some gwAddr =>
     if ipIsUnspecified gwAddr then []
     else [⟨routeGwReachabilityDep, .anyOfGwReachable gwAddr route.OutgoingInterface⟩]
   | none => [])

end RouteDescriptor

/-! ### Dump: stride partitioning and result collection -/

/-- The index set iterated by one dump worker: the loop header
`for i := goRoutineIdx; i < total; i += goRoutinesCnt`.  (With a zero step the
Go loop would not terminate; the model returns the empty list, a case outside
every use, since the worker count is at least 1.) -/
def strideIndices (start step total : Nat) : List Nat :=
  if h : step = 0 ∨ total ≤ start then []
  else start :: strideIndices (start + step) step total
termination_by total - start
decreasing_by
  rw [not_or] at h
  omega

/-- Origin tag of a dumped key/value pair. -/
inductive ValueOrigin where
  | FromNB
  | FromSB
  | UnknownOrigin
  deriving DecidableEq

/-- `adapter.RouteKVWithMetadata`: one discovered route with its key and
origin. -/
structure RouteKVWithMetadata where
  Key : String
  Value : StaticRoute
  Origin : ValueOrigin
  deriving DecidableEq

/-- `routeDump`: the message one dump worker sends on the channel. -/
structure routeDump where
  routes : List RouteKVWithMetadata
  err : Option GoError
  deriving DecidableEq

namespace RouteDescriptor

/-- The collection loop of `RouteDescriptor.Dump`, applied to the worker
results in their arrival order: append routes result by result, returning
immediately with the dump collected so far when a result carries an error. -/
def collectDumps : List routeDump → List RouteKVWithMetadata × Option GoError
  | [] => ([], none)
  | d :: ds =>
    match d.err with
    | some e => ([], some e)
    | none =>
      let rest := collectDumps ds
      (d.routes ++ rest.1, rest.2)

end RouteDescriptor

/-! ### Punt-to-host descriptor -/

/-- `punt.L3Protocol`. -/
inductive PuntL3Protocol where
  | UNDEFINED_L3
  | IPv4
  | IPv6
  | ALL
  deriving DecidableEq

/-- `punt.L4Protocol`. -/
inductive PuntL4Protocol where
  | UNDEFINED_L4
  | TCP
  | UDP
  deriving DecidableEq

/-- `punt.ToHost`: the value of one punt-to-host rule. -/
structure ToHost where
  L3Protocol : PuntL3Protocol
  L4Protocol : PuntL4Protocol
  Port : Nat
  SocketPath : String
  deriving DecidableEq

/-- The VPP punt handler operations, each returning `none` for success. -/
structure PuntEnv where
  addPuntResult : ToHost → Option GoError
  registerSocketResult : ToHost → Option GoError
  deregisterSocketResult : ToHost → Option GoError

/-- One call into the VPP punt handler, recorded in order. -/
inductive PuntCall where
  | addPunt (p : ToHost)
  | registerPuntSocket (p : ToHost)
  | deregisterPuntSocket (p : ToHost)
  deriving DecidableEq

/-- `adapter.PuntToHostKVWithMetadata`. -/
structure PuntToHostKVWithMetadata where
  Key : String
  Value : ToHost
  Origin : ValueOrigin
  deriving DecidableEq

namespace PuntToHostDescriptor

/-- `validatePuntConfig`: L3 protocol must be IPv4/IPv6/ALL, L4 protocol must
be TCP/UDP, the port must be non-zero. -/
def validatePuntConfig (puntCfg : ToHost) : Option GoError :=
  match puntCfg.L3Protocol with
  | .IPv4 | .IPv6 | .ALL =>
    match puntCfg.L4Protocol with
    | .TCP | .UDP =>
      if puntCfg.Port = 0 then some .ErrPuntWithoutPort else none
    | _ => some .ErrPuntWithoutL4Protocol
  | _ => some .ErrPuntWithoutL3Protocol

/-- `PuntToHostDescriptor.Add`: validate, then either add a punt to host or
register a punt socket, surfacing the handler's error. -/
def Add (env : PuntEnv) (_key : String) (p : ToHost) : Option GoError × List PuntCall :=
  match validatePuntConfig p with
  | some e => (some e, [])
  | none =>
    if p.SocketPath = "" then (env.addPuntResult p, [.addPunt p])
    else (env.registerSocketResult p, [.registerPuntSocket p])

/-- `PuntToHostDescriptor.Delete`: deletion of a non-socket punt is not
supported by VPP and is treated as a no-op success; a socket punt is
deregistered and the handler's error surfaced. -/
def Delete (env : PuntEnv) (_key : String) (p : ToHost) (_metadata : Unit) :
    Option GoError × List PuntCall :=
  if p.SocketPath = "" then (none, [])
  else (env.deregisterSocketResult p, [.deregisterPuntSocket p])

/-- `PuntToHostDescriptor.Dump`: dumping punt entries is not supported by the
VPP API; the implementation returns an empty dump and no error. -/
def Dump (_correlate : List PuntToHostKVWithMetadata) :
    List PuntToHostKVWithMetadata × Option GoError :=
  ([], none)

/-- `PuntToHostDescriptor.ModifyWithRecreate`: punt entries are always
modified via re-creation. -/
def ModifyWithRecreate (_key : String) (_oldPunt _newPunt : ToHost) (_metadata : Unit) : Bool :=
  true

/-- `PuntToHostDescriptor.IsRetriableFailure`: `false` exactly for the three
declared non-retriable punt errors. -/
def IsRetriableFailure (err : GoError) : Bool :=
  !(puntNonRetriable.contains err)

end PuntToHostDescriptor

/-- Modelled from the spec: the descriptor contract's Dump — a full
enumeration of the real, currently-existing objects of this type, independent
of desired state.  `existing` stands for the set of punt-to-host rules
actually present in VPP. -/
def specContractPuntDump (existing : List PuntToHostKVWithMetadata)
    (_correlate : List PuntToHostKVWithMetadata) :
    List PuntToHostKVWithMetadata × Option GoError :=
  (existing, none)

/-! ### Concrete inputs used by witnesses and counterexamples -/

/-- An environment in which every interface lookup misses and every external
operation succeeds. -/
def sampleRouteEnv : RouteEnv :=
  ⟨fun _ => none, fun _ => none, fun _ => none, fun _ => none, fun _ => none⟩

/-- An environment in which every interface lookup finds index 5 in
namespace `ns1` and every external operation succeeds. -/
def sampleRouteEnvFound : RouteEnv :=
  ⟨fun _ => some ⟨5, "ns1"⟩, fun _ => none, fun _ => none, fun _ => none, fun _ => none⟩

def routeNoIface : StaticRoute := ⟨"", "10.0.0.0/24", "", .GLOBAL, 0⟩

def routeLinkGwNoIface : StaticRoute := ⟨"", "169.254.0.0/16", "10.0.0.1", .LINK, 0⟩

def routeLinkGw : StaticRoute := ⟨"eth0", "169.254.0.0/16", "10.0.0.1", .LINK, 0⟩

def routeBadDst : StaticRoute := ⟨"eth0", "not-a-network", "", .GLOBAL, 0⟩

def samplePuntEnv : PuntEnv := ⟨fun _ => none, fun _ => none, fun _ => none⟩

def puntNoSocket : ToHost := ⟨.IPv4, .TCP, 9000, ""⟩

def puntWithSocket : ToHost := ⟨.IPv4, .TCP, 9000, "/tmp/socket"⟩

def samplePuntKV : PuntToHostKVWithMetadata := ⟨"punt-key", puntWithSocket, .UnknownOrigin⟩

def kvA : RouteKVWithMetadata := ⟨"r1", ⟨"eth0", "10.0.0.0/24", "", .GLOBAL, 0⟩, .UnknownOrigin⟩

def kvB : RouteKVWithMetadata := ⟨"r2", ⟨"eth1", "10.0.1.0/24", "", .GLOBAL, 0⟩, .UnknownOrigin⟩

def kvC : RouteKVWithMetadata := ⟨"r3", ⟨"eth2", "10.0.2.0/24", "", .GLOBAL, 0⟩, .UnknownOrigin⟩

/-- A possible arrival order of worker results: a successful worker, a worker
that found `kvB` but then hit a fatal error, and another successful worker. -/
def sampleArrival : List routeDump :=
  [⟨[kvA], none⟩, ⟨[kvB], some (.unknownErr 0)⟩, ⟨[kvC], none⟩]

def c5route1 : StaticRoute := ⟨"eth0", "2001:DB8::/32", "2001:DB8::1", .GLOBAL, 5⟩

def c5route2 : StaticRoute := ⟨"eth0", "2001:db8::/32", "2001:db8::1", .GLOBAL, 5⟩

def c10route : StaticRoute := ⟨"eth0", "10.0.0.0/24", "", .GLOBAL, 0⟩

/-! ### Helper lemmas: case insensitivity of the parsers -/

theorem char_toNat_inj {c d : Char} (h : c.toNat = d.toNat) : c = d :=
  Char.ext (UInt32.ext h)

theorem charOfNat_toNat_upper (n : Nat) (h1 : 65 ≤ n) (h2 : n ≤ 90) :
    (Char.ofNat (n + 32)).toNat = n + 32 := by
  interval_cases n <;> decide

theorem toLower_fixed (c : Char) (h : ¬(65 ≤ c.toNat ∧ c.toNat ≤ 90)) :
    c.toLower = c := by
  unfold Char.toLower
  exact if_neg (fun hc => h ⟨hc.1, hc.2⟩)

theorem toLower_toNat_upper (c : Char) (h1 : 65 ≤ c.toNat) (h2 : c.toNat ≤ 90) :
    c.toLower.toNat = c.toNat + 32 := by
  have hl : c.toLower = Char.ofNat (c.toNat + 32) := by
    unfold Char.toLower
    exact if_pos ⟨h1, h2⟩
  rw [hl, charOfNat_toNat_upper c.toNat h1 h2]

theorem classifyN_shift {n : Nat} (h1 : 65 ≤ n) (h2 : n ≤ 90) :
    classifyN (n + 32) = classifyN n := by
  interval_cases n <;> decide

theorem classify_toLower (c : Char) : classify c.toLower = classify c := by
  by_cases h : 65 ≤ c.toNat ∧ c.toNat ≤ 90
  · unfold classify
    rw [toLower_toNat_upper c h.1 h.2]
    exact classifyN_shift h.1 h.2
  · rw [toLower_fixed c h]

theorem strToks_goToLower (s : String) : strToks (goToLower s) = strToks s := by
  unfold strToks goToLower
  rw [show (String.mk (s.data.map Char.toLower)).data = s.data.map Char.toLower from rfl]
  rw [List.map_map]
  exact List.map_congr_left (fun c _ => classify_toLower c)

theorem parseIP_goToLower (s : String) : parseIP (goToLower s) = parseIP s := by
  unfold parseIP; rw [strToks_goToLower]

theorem parseCIDR_goToLower (s : String) : parseCIDR (goToLower s) = parseCIDR s := by
  unfold parseCIDR; rw [strToks_goToLower]

theorem toLower_colon_iff (c : Char) : c.toLower = ':' ↔ c = ':' := by
  constructor
  · intro h
    by_cases hu : 65 ≤ c.toNat ∧ c.toNat ≤ 90
    · exfalso
      have hn := congrArg Char.toNat h
      rw [toLower_toNat_upper c hu.1 hu.2] at hn
      have h58 : (':' : Char).toNat = 58 := by decide
      omega
    · rw [toLower_fixed c hu] at h; exact h
  · rintro rfl; decide

theorem isIPv6Str_goToLower (s : String) : isIPv6Str (goToLower s) = isIPv6Str s := by
  unfold isIPv6Str goToLower
  rw [show (String.mk (s.data.map Char.toLower)).data = s.data.map Char.toLower from rfl]
  have hiff : (':' ∈ s.data.map Char.toLower) ↔ (':' ∈ s.data) := by
    constructor
    · intro h
      obtain ⟨c, hc, he⟩ := List.mem_map.mp h
      exact (toLower_colon_iff c).mp he ▸ hc
    · intro h
      exact List.mem_map.mpr ⟨':', h, by decide⟩
  exact Bool.coe_iff_coe.mp (by rw [List.elem_iff, List.elem_iff]; exact hiff)

/-! ### Helper lemmas: the address family visible in a network string -/

theorem splitOnTok_mem (sep : CharTok) {t : CharTok} {toks : List CharTok} (ht : t ∈ toks) :
    t = sep ∨ ∃ g ∈ splitOnTok sep toks, t ∈ g := by
  induction toks with
  | nil => simp at ht
  | cons x xs ih =>
    rcases List.mem_cons.mp ht with rfl | hx
    · by_cases hxs : t = sep
      · left; exact hxs
      · right
        rw [splitOnTok, if_neg hxs]
        cases hsp : splitOnTok sep xs with
        | nil => exact ⟨[t], by simp⟩
        | cons g gs => exact ⟨t :: g, by simp⟩
    · rcases ih hx with h | ⟨g, hg, htg⟩
      · left; exact h
      · right
        rw [splitOnTok]
        by_cases hx2 : x = sep
        · rw [if_pos hx2]
          exact ⟨g, List.mem_cons_of_mem _ hg, htg⟩
        · rw [if_neg hx2]
          cases hsp : splitOnTok sep xs with
          | nil => rw [hsp] at hg; simp at hg
          | cons g' gs =>
            rw [hsp] at hg
            rcases List.mem_cons.mp hg with rfl | hgs
            · exact ⟨x :: g, List.mem_cons_self _ _, List.mem_cons_of_mem _ htg⟩
            · exact ⟨g, List.mem_cons_of_mem _ hgs, htg⟩

theorem v4FieldQ_dec {g : List CharTok} {x : Nat} (h : v4Field? g = some x) :
    g.all CharTok.isDecDigit = true := by
  unfold v4Field? at h
  split at h
  case isTrue hc => exact hc.2.1
  case isFalse => simp at h

theorem parseIPv4T_no_colon {toks : List CharTok} {ip : List Nat}
    (h : parseIPv4T toks = some ip) : CharTok.colon ∉ toks := by
  intro hc
  unfold parseIPv4T at h
  split at h
  case h_2 => simp at h
  case h_1 a b c d heq =>
    rcases splitOnTok_mem .dot hc with heq' | ⟨g, hg, htg⟩
    · exact absurd heq' (by decide)
    · rw [heq] at hg
      simp only [List.mem_cons, List.not_mem_nil, or_false] at hg
      have hall : g.all CharTok.isDecDigit = true := by
        rcases hg with rfl | rfl | rfl | rfl
        · split at h
          case h_1 h1 h2 h3 h4 => exact v4FieldQ_dec h1
          case h_2 => simp at h
        · split at h
          case h_1 h1 h2 h3 h4 => exact v4FieldQ_dec h2
          case h_2 => simp at h
        · split at h
          case h_1 h1 h2 h3 h4 => exact v4FieldQ_dec h3
          case h_2 => simp at h
        · split at h
          case h_1 h1 h2 h3 h4 => exact v4FieldQ_dec h4
          case h_2 => simp at h
      have := List.all_eq_true.mp hall _ htg
      simp [CharTok.isDecDigit] at this

theorem parseIPv6Loop_start_colon {s : List CharTok} {ip : List Nat}
    (h : parseIPv6Loop 8 s [] none = some ip) : CharTok.colon ∈ s := by
  rw [show (8 : Nat) = 7 + 1 from rfl] at h
  rw [parseIPv6Loop] at h
  rw [if_neg (by simp)] at h
  by_cases hd : (s.takeWhile CharTok.isHexDigit).isEmpty
  · rw [if_pos hd] at h; simp at h
  · rw [if_neg hd] at h
    by_cases hx : 65535 < hexToksVal (s.takeWhile CharTok.isHexDigit)
    · rw [if_pos hx] at h; simp at h
    · rw [if_neg hx] at h
      by_cases hdot : (s.dropWhile CharTok.isHexDigit).head? = some CharTok.dot
      · rw [if_pos hdot] at h
        rw [if_neg (by simp)] at h
        simp at h
      · rw [if_neg hdot] at h
        have hsub : s.dropWhile CharTok.isHexDigit ⊆ s :=
          (List.dropWhile_sublist _).subset
        cases hr : s.dropWhile CharTok.isHexDigit with
        | nil => rw [hr] at h; simp [parseIPv6Finish] at h
        | cons r rs =>
          cases r with
          | colon =>
            exact hsub (hr ▸ List.mem_cons_self _ _)
          | dec n => rw [hr] at h; simp at h
          | hexL n => rw [hr] at h; simp at h
          | dot => rw [hr] at h; simp at h
          | slash => rw [hr] at h; simp at h
          | percent => rw [hr] at h; simp at h
          | other => rw [hr] at h; simp at h

theorem parseIPv6T_has_colon {toks : List CharTok} {ip : List Nat}
    (h : parseIPv6T toks = some ip) : CharTok.colon ∈ toks := by
  unfold parseIPv6T at h
  split at h
  · exact List.mem_cons_self _ _
  · exact parseIPv6Loop_start_colon h

theorem splitFirstSlash_eq :
    ∀ {toks a m : List CharTok}, splitFirstSlash toks = some (a, m) →
      toks = a ++ CharTok.slash :: m := by
  intro toks
  induction toks with
  | nil => intro a m h; simp [splitFirstSlash] at h
  | cons t ts ih =>
    intro a m h
    cases t with
    | slash =>
      rw [show splitFirstSlash (CharTok.slash :: ts) = some ([], ts) from rfl] at h
      obtain ⟨rfl, rfl⟩ := by simpa using h
      rfl
    | dec n =>
      rw [show splitFirstSlash (CharTok.dec n :: ts)
            = (splitFirstSlash ts).map (fun p => (CharTok.dec n :: p.1, p.2)) from rfl] at h
      rw [Option.map_eq_some'] at h
      obtain ⟨⟨a', m'⟩, hp, heq⟩ := h
      obtain ⟨rfl, rfl⟩ := by simpa using heq.symm
      simp [ih hp]
    | hexL n =>
      rw [show splitFirstSlash (CharTok.hexL n :: ts)
            = (splitFirstSlash ts).map (fun p => (CharTok.hexL n :: p.1, p.2)) from rfl] at h
      rw [Option.map_eq_some'] at h
      obtain ⟨⟨a', m'⟩, hp, heq⟩ := h
      obtain ⟨rfl, rfl⟩ := by simpa using heq.symm
      simp [ih hp]
    | dot =>
      rw [show splitFirstSlash (CharTok.dot :: ts)
            = (splitFirstSlash ts).map (fun p => (CharTok.dot :: p.1, p.2)) from rfl] at h
      rw [Option.map_eq_some'] at h
      obtain ⟨⟨a', m'⟩, hp, heq⟩ := h
      obtain ⟨rfl, rfl⟩ := by simpa using heq.symm
      simp [ih hp]
    | colon =>
      rw [show splitFirstSlash (CharTok.colon :: ts)
            = (splitFirstSlash ts).map (fun p => (CharTok.colon :: p.1, p.2)) from rfl] at h
      rw [Option.map_eq_some'] at h
      obtain ⟨⟨a', m'⟩, hp, heq⟩ := h
      obtain ⟨rfl, rfl⟩ := by simpa using heq.symm
      simp [ih hp]
    | percent =>
      rw [show splitFirstSlash (CharTok.percent :: ts)
            = (splitFirstSlash ts).map (fun p => (CharTok.percent :: p.1, p.2)) from rfl] at h
      rw [Option.map_eq_some'] at h
      obtain ⟨⟨a', m'⟩, hp, heq⟩ := h
      obtain ⟨rfl, rfl⟩ := by simpa using heq.symm
      simp [ih hp]
    | other =>
      rw [show splitFirstSlash (CharTok.other :: ts)
            = (splitFirstSlash ts).map (fun p => (CharTok.other :: p.1, p.2)) from rfl] at h
      rw [Option.map_eq_some'] at h
      obtain ⟨⟨a', m'⟩, hp, heq⟩ := h
      obtain ⟨rfl, rfl⟩ := by simpa using heq.symm
      simp [ih hp]

theorem maskWordQ_no_colon {g : List CharTok} {x : Nat} (h : maskWord? g = some x) :
    CharTok.colon ∉ g := by
  intro hc
  unfold maskWord? at h
  split at h
  case isTrue hcond =>
    have := List.all_eq_true.mp hcond.2 _ hc
    simp [CharTok.isDecDigit] at this
  case isFalse => simp at h

theorem cidrMask_length (ones bitsTotal : Nat) :
    (cidrMask ones bitsTotal).length = bitsTotal / 8 := by
  simp [cidrMask]

theorem parseCIDRT_colon_facts {toks : List CharTok} {n : IPNet}
    (h : parseCIDRT toks = some n) :
    (n.mask.length = 4 ∧ CharTok.colon ∉ toks)
    ∨ (n.mask.length = 16 ∧ CharTok.colon ∈ toks) := by
  unfold parseCIDRT at h
  split at h
  case h_1 => simp at h
  case h_2 addr maskTxt heq =>
    have htoks := splitFirstSlash_eq heq
    cases hv4 : parseIPv4T addr with
    | some ip =>
      rw [hv4] at h
      cases hmw : maskWord? maskTxt with
      | none => rw [hmw] at h; simp at h
      | some k =>
        rw [hmw] at h
        simp only at h
        split at h
        case isTrue =>
          left
          obtain rfl := by simpa using h.symm
          constructor
          · simp [cidrMask_length]
          · rw [htoks]
            intro hc
            rcases List.mem_append.mp hc with hc | hc
            · exact parseIPv4T_no_colon hv4 hc
            · rcases List.mem_cons.mp hc with hc | hc
              · exact absurd hc (by decide)
              · exact maskWordQ_no_colon hmw hc
        case isFalse => simp at h
    | none =>
      rw [hv4] at h
      cases hv6 : parseIPv6T addr with
      | none => rw [hv6] at h; simp at h
      | some ip =>
        rw [hv6] at h
        cases hmw : maskWord? maskTxt with
        | none => rw [hmw] at h; simp at h
        | some k =>
          rw [hmw] at h
          simp only at h
          split at h
          case isTrue =>
            right
            obtain rfl := by simpa using h.symm
            constructor
            · simp [cidrMask_length]
            · rw [htoks]
              exact List.mem_append.mpr (Or.inl (parseIPv6T_has_colon hv6))
          case isFalse => simp at h

theorem classifyN_colon {n : Nat} (h : classifyN n = CharTok.colon) : n = 58 := by
  unfold classifyN at h
  split_ifs at h <;> simp_all

theorem colon_strToks_iff (s : String) :
    CharTok.colon ∈ strToks s ↔ isIPv6Str s = true := by
  unfold strToks isIPv6Str
  rw [List.elem_iff]
  constructor
  · intro h
    obtain ⟨c, hc, he⟩ := List.mem_map.mp h
    have h58 : c.toNat = 58 := classifyN_colon he
    have hcc : c = ':' := char_toNat_inj (by rw [h58]; decide)
    exact hcc ▸ hc
  · intro h
    exact List.mem_map.mpr ⟨':', h, by decide⟩

theorem ipEqual_refl (a : List Nat) : ipEqual a a = true := by
  unfold ipEqual
  rw [if_pos rfl]
  simp

theorem equalAddrs_refl (a : String) : equalAddrs a a = true := by
  unfold equalAddrs
  cases h : parseIP a with
  | some x => simp [h, ipEqual_refl]
  | none => simp [h]

theorem equalNetworks_refl (d : String) : equalNetworks d d = true := by
  unfold equalNetworks
  cases h : parseCIDR d with
  | some x => simp [h, ipEqual_refl]
  | none => simp [h]

theorem goToLower_empty_iff (s : String) : goToLower s = "" ↔ s = "" := by
  rw [String.ext_iff, String.ext_iff]
  show s.data.map Char.toLower = ([] : List Char) ↔ s.data = []
  simp

/-! ### Helper lemmas: stride partitioning -/

theorem strideIndices_mem {step : Nat} (hstep : step ≠ 0) (start total k : Nat) :
    k ∈ strideIndices start step total ↔
      start ≤ k ∧ k < total ∧ (k - start) % step = 0 := by
  induction start, step, total using strideIndices.induct with
  | case1 start step total h =>
    rw [strideIndices, dif_pos h]
    simp only [List.not_mem_nil, false_iff]
    rintro ⟨h1, h2, h3⟩
    rcases h with h | h
    · exact hstep h
    · omega
  | case2 start step total h ih =>
    rw [strideIndices, dif_neg h]
    rw [not_or] at h
    simp only [List.mem_cons, ih hstep]
    constructor
    · rintro (rfl | ⟨h1, h2, h3⟩)
      · refine ⟨le_refl _, by omega, by simp⟩
      · refine ⟨by omega, h2, ?_⟩
        have hs : step ≤ k - start := by omega
        have hmod := Nat.mod_eq_sub_mod hs
        rw [Nat.sub_sub] at hmod
        omega
    · rintro ⟨h1, h2, h3⟩
      rcases Nat.eq_or_lt_of_le h1 with rfl | hlt
      · left; rfl
      · right
        have hge : step ≤ k - start := by
          by_contra hc
          push_neg at hc
          have h0 : k - start < step := hc
          have hmod := Nat.mod_eq_of_lt h0
          omega
        refine ⟨by omega, h2, ?_⟩
        have hmod := Nat.mod_eq_sub_mod hge
        rw [Nat.sub_sub] at hmod
        omega

theorem strideIndices_mem_lt {N L i k : Nat} (hN : N ≠ 0) (hi : i < N) :
    k ∈ strideIndices i N L ↔ k < L ∧ k % N = i := by
  rw [strideIndices_mem hN]
  constructor
  · rintro ⟨h1, h2, h3⟩
    refine ⟨h2, ?_⟩
    obtain ⟨c, hc⟩ := Nat.dvd_of_mod_eq_zero h3
    have hk : k = i + N * c := by omega
    subst hk
    simp [Nat.add_mul_mod_self_left, Nat.mod_eq_of_lt hi]
  · rintro ⟨h1, h2⟩
    have hik : i ≤ k := h2 ▸ Nat.mod_le k N
    refine ⟨hik, h1, ?_⟩
    have hd : k = N * (k / N) + k % N := (Nat.div_add_mod k N).symm
    have hsub : k - i = N * (k / N) := by omega
    rw [hsub]
    exact Nat.mul_mod_right _ _

theorem strideIndices_nodup {step : Nat} (hstep : step ≠ 0) (start total : Nat) :
    (strideIndices start step total).Nodup := by
  induction start, step, total using strideIndices.induct with
  | case1 start step total h => rw [strideIndices, dif_pos h]; exact List.nodup_nil
  | case2 start step total h ih =>
    rw [strideIndices, dif_neg h]
    rw [not_or] at h
    refine List.Nodup.cons ?_ (ih hstep)
    rw [strideIndices_mem hstep]
    rintro ⟨h1, h2, h3⟩
    omega

/-! ### Claim theorems -/

/-- C1 (counterexample): the claim says `Add` validates before touching any
external resource and returns the classified error of the first violated
precondition.  For the route `⟨"eth0", "not-a-network", "", GLOBAL, 0⟩` the
destination-network parse check is the first violated precondition, yet
`Add` performs the interface-index lookup first: when the lookup misses it
returns the (unclassified, retriable) metadata error instead of
`ErrRouteWithInvalidDst`, and even when the lookup hits, the classified parse
error is only returned after the index was touched. -/
theorem routeAdd_validation_not_before_resource_cex :
    routeBadDst.OutgoingInterface ≠ "" ∧ routeBadDst.DstNetwork ≠ ""
    ∧ parseCIDR routeBadDst.DstNetwork = none
    ∧ RouteDescriptor.Add sampleRouteEnv "k" routeBadDst
        = (.error (.ifaceMetaMissing "eth0"), [.ifLookup "eth0"])
    ∧ (RouteDescriptor.Add sampleRouteEnv "k" routeBadDst).1
        ≠ .error .ErrRouteWithInvalidDst
    ∧ RouteDescriptor.Add sampleRouteEnvFound "k" routeBadDst
        = (.error .ErrRouteWithInvalidDst, [.ifLookup "eth0"])
    ∧ (RouteDescriptor.Add sampleRouteEnvFound "k" routeBadDst).2 ≠ [] := by
  refine ⟨by decide, by decide, by decide, by decide, by decide, by decide, by decide⟩

/-- C1 (amended): `updateRoute` checks its preconditions in the fixed order
interface presence → destination presence → link-scope-with-gateway, all
before any resource access; the parse checks (destination network, then
gateway address, then scope) run in that order *after* the interface-index
lookup — whose miss short-circuits with the metadata error — and before the
namespace switch and the netlink call.  The first violated check determines
the returned error, deterministically in the route and the environment. -/
theorem routeAdd_validation_order (env : RouteEnv) (route : StaticRoute)
    (actionName : String) (clb : NetlinkRoute → Option GoError) :
    (route.OutgoingInterface = "" →
      RouteDescriptor.updateRoute env route actionName clb
        = (.error .ErrRouteWithoutInterface, []))
    ∧ (route.OutgoingInterface ≠ "" → route.DstNetwork = "" →
      RouteDescriptor.updateRoute env route actionName clb
        = (.error .ErrRouteWithoutDestination, []))
    ∧ (route.OutgoingInterface ≠ "" → route.DstNetwork ≠ "" →
       route.Scope = .LINK → route.GwAddr ≠ "" →
      RouteDescriptor.updateRoute env route actionName clb
        = (.error .ErrRouteLinkWithGw, []))
    ∧ (route.OutgoingInterface ≠ "" → route.DstNetwork ≠ "" →
       ¬(route.Scope = .LINK ∧ route.GwAddr ≠ "") →
       env.lookupByName route.OutgoingInterface = none →
      RouteDescriptor.updateRoute env route actionName clb
        = (.error (.ifaceMetaMissing route.OutgoingInterface),
           [.ifLookup route.OutgoingInterface]))
    ∧ (∀ m, route.OutgoingInterface ≠ "" → route.DstNetwork ≠ "" →
       ¬(route.Scope = .LINK ∧ route.GwAddr ≠ "") →
       env.lookupByName route.OutgoingInterface = some m →
       parseCIDR route.DstNetwork = none →
      RouteDescriptor.updateRoute env route actionName clb
        = (.error .ErrRouteWithInvalidDst, [.ifLookup route.OutgoingInterface]))
    ∧ (∀ m n, route.OutgoingInterface ≠ "" → route.DstNetwork ≠ "" →
       ¬(route.Scope = .LINK ∧ route.GwAddr ≠ "") →
       env.lookupByName route.OutgoingInterface = some m →
       parseCIDR route.DstNetwork = some n →
       route.GwAddr ≠ "" → parseIP route.GwAddr = none →
      RouteDescriptor.updateRoute env route actionName clb
        = (.error .ErrRouteWithInvalidGw, [.ifLookup route.OutgoingInterface]))
    ∧ (∀ m n e, route.OutgoingInterface ≠ "" → route.DstNetwork ≠ "" →
       ¬(route.Scope = .LINK ∧ route.GwAddr ≠ "") →
       env.lookupByName route.OutgoingInterface = some m →
       parseCIDR route.DstNetwork = some n →
       (route.GwAddr = "" ∨ ∃ g, parseIP route.GwAddr = some g) →
       rtScopeFromNBToNetlink route.Scope = .error e →
      RouteDescriptor.updateRoute env route actionName clb
        = (.error e, [.ifLookup route.OutgoingInterface])) := by
  refine ⟨?_, ?_, ?_, ?_, ?_, ?_, ?_⟩
  · intro h1; simp [RouteDescriptor.updateRoute, h1]
  · intro h1 h2; simp [RouteDescriptor.updateRoute, h1, h2]
  · intro h1 h2 h3 h4; simp [RouteDescriptor.updateRoute, h1, h2, h3, h4]
  · intro h1 h2 h3 h4; simp [RouteDescriptor.updateRoute, h1, h2, h3, h4]
  · intro m h1 h2 h3 h4 h5; simp [RouteDescriptor.updateRoute, h1, h2, h3, h4, h5]
  · intro m n h1 h2 h3 h4 h5 h6 h7
    have hs : ¬route.Scope = StaticRouteScope.LINK := fun hl => h3 ⟨hl, h6⟩
    simp [RouteDescriptor.updateRoute, h1, h2, hs, h4, h5, h6, h7]
  · intro m n e h1 h2 h3 h4 h5 h6 h7
    rcases h6 with h6 | ⟨g, h6⟩
    · simp [RouteDescriptor.updateRoute, h1, h2, h3, h4, h5, h6, h7]
    · by_cases hg : route.GwAddr = ""
      · simp [RouteDescriptor.updateRoute, h1, h2, h3, h4, h5, hg, h7]
      · have hs : ¬route.Scope = StaticRouteScope.LINK := fun hl => h3 ⟨hl, hg⟩
        simp [RouteDescriptor.updateRoute, h1, h2, hs, h4, h5, hg, h6, h7]

/-- C1 (witness): the amended characterization evaluated at a concrete
environment and route. -/
theorem routeAdd_validation_order_witness :
    sampleRouteEnvFound.lookupByName "eth0" = some ⟨5, "ns1"⟩
    ∧ parseCIDR routeBadDst.DstNetwork = none
    ∧ RouteDescriptor.updateRoute sampleRouteEnvFound routeBadDst "add"
        sampleRouteEnvFound.addResult
        = (.error .ErrRouteWithInvalidDst, [.ifLookup "eth0"]) := by
  refine ⟨rfl, by decide, ?_⟩
  exact (routeAdd_validation_order sampleRouteEnvFound routeBadDst "add"
      sampleRouteEnvFound.addResult).2.2.2.2.1
    ⟨5, "ns1"⟩ (by decide) (by decide) (by decide) rfl (by decide)

/-- C2: for every route value with an empty `OutgoingInterface`, each of
`Add`, `Delete` and `Modify` returns the terminal error
`ErrRouteWithoutInterface` with an empty resource-call trace: no
interface-index lookup, no namespace switch, no netlink operation. -/
theorem routeOps_missing_interface_terminal (env : RouteEnv) (key : String)
    (route oldRoute : StaticRoute) (meta : Unit)
    (h : route.OutgoingInterface = "") :
    RouteDescriptor.Add env key route = (.error .ErrRouteWithoutInterface, [])
    ∧ RouteDescriptor.Delete env key route meta
        = (.error .ErrRouteWithoutInterface, [])
    ∧ RouteDescriptor.Modify env key oldRoute route meta
        = (.error .ErrRouteWithoutInterface, []) := by
  refine ⟨?_, ?_, ?_⟩ <;>
    simp [RouteDescriptor.Add, RouteDescriptor.Delete, RouteDescriptor.Modify,
      RouteDescriptor.updateRoute, h]

/-- C2 (witness). -/
theorem routeOps_missing_interface_witness :
    routeNoIface.OutgoingInterface = ""
    ∧ RouteDescriptor.Add sampleRouteEnv "key" routeNoIface
        = (.error .ErrRouteWithoutInterface, []) :=
  ⟨rfl, (routeOps_missing_interface_terminal sampleRouteEnv "key" routeNoIface
      routeNoIface () rfl).1⟩

/-- C3 (counterexample): the claim quantifies over *every* route value with
link-local scope and a non-empty gateway, but a value that additionally has
an empty outgoing interface fails the earlier interface-presence check:
`Add` returns `ErrRouteWithoutInterface`, not `ErrRouteLinkWithGw`. -/
theorem routeOps_link_with_gw_cex :
    routeLinkGwNoIface.Scope = .LINK ∧ routeLinkGwNoIface.GwAddr ≠ ""
    ∧ RouteDescriptor.Add sampleRouteEnv "key" routeLinkGwNoIface
        = (.error .ErrRouteWithoutInterface, [])
    ∧ (RouteDescriptor.Add sampleRouteEnv "key" routeLinkGwNoIface).1
        ≠ .error .ErrRouteLinkWithGw := by
  refine ⟨rfl, by decide, by decide, by decide⟩

/-- C3 (amended): for every route value with link-local scope and a non-empty
gateway that passes the two earlier presence checks (non-empty outgoing
interface and destination), both `Add` and `Modify` return the terminal error
`ErrRouteLinkWithGw` without any resource call. -/
theorem routeOps_link_with_gw_terminal (env : RouteEnv) (key : String)
    (oldRoute route : StaticRoute) (meta : Unit)
    (h1 : route.OutgoingInterface ≠ "") (h2 : route.DstNetwork ≠ "")
    (h3 : route.Scope = .LINK) (h4 : route.GwAddr ≠ "") :
    RouteDescriptor.Add env key route = (.error .ErrRouteLinkWithGw, [])
    ∧ RouteDescriptor.Modify env key oldRoute route meta
        = (.error .ErrRouteLinkWithGw, []) := by
  constructor <;>
    simp [RouteDescriptor.Add, RouteDescriptor.Modify, RouteDescriptor.updateRoute,
      h1, h2, h3, h4]

/-- C3 (witness). -/
theorem routeOps_link_with_gw_witness :
    routeLinkGw.OutgoingInterface ≠ "" ∧ routeLinkGw.DstNetwork ≠ ""
    ∧ routeLinkGw.Scope = .LINK ∧ routeLinkGw.GwAddr ≠ ""
    ∧ RouteDescriptor.Add sampleRouteEnv "key" routeLinkGw
        = (.error .ErrRouteLinkWithGw, []) :=
  ⟨by decide, by decide, rfl, by decide,
   (routeOps_link_with_gw_terminal sampleRouteEnv "key" routeLinkGw routeLinkGw ()
      (by decide) (by decide) rfl (by decide)).1⟩

/-- C4: the route descriptor's `IsRetriableFailure` returns `false` exactly
for its six declared terminal errors, and the punt-to-host descriptor's
returns `false` exactly for its three declared terminal errors; every other
error value — including a freshly constructed unknown error — yields `true`. -/
theorem isRetriableFailure_closed_membership (e : GoError) :
    (RouteDescriptor.IsRetriableFailure e = false ↔ e ∈ nonRetriableErrs)
    ∧ (PuntToHostDescriptor.IsRetriableFailure e = false ↔ e ∈ puntNonRetriable) := by
  constructor <;>
    simp [RouteDescriptor.IsRetriableFailure, PuntToHostDescriptor.IsRetriableFailure,
      List.elem_iff]

/-- C5: `EquivalentRoutes` is insensitive to representational differences:
two route values of the same key agreeing on interface, scope and metric are
equivalent whenever their destination networks differ only in letter case or
are different CIDR representations of the same network (equal parsed network
address and mask), and their gateway strings differ only in letter case;
moreover, whenever an address (resp. network) string fails to parse,
`equalAddrs` (resp. `equalNetworks`) falls back to case-insensitive string
equality. -/
theorem equivalentRoutes_representation_insensitive :
    (∀ (key : String) (r1 r2 : StaticRoute),
      r1.OutgoingInterface = r2.OutgoingInterface →
      r1.Scope = r2.Scope → r1.Metric = r2.Metric →
      (goToLower r1.DstNetwork = goToLower r2.DstNetwork ∨
        (∃ n1 n2, parseCIDR r1.DstNetwork = some n1 ∧ parseCIDR r2.DstNetwork = some n2 ∧
          ipEqual n1.ip n2.ip = true ∧ n1.mask = n2.mask)) →
      goToLower r1.GwAddr = goToLower r2.GwAddr →
      EquivalentRoutes key r1 r2 = true)
    ∧ (∀ a1 a2 : String, (parseIP a1 = none ∨ parseIP a2 = none) →
        (equalAddrs a1 a2 = true ↔ goToLower a1 = goToLower a2))
    ∧ (∀ d1 d2 : String, (parseCIDR d1 = none ∨ parseCIDR d2 = none) →
        (equalNetworks d1 d2 = true ↔ goToLower d1 = goToLower d2)) := by
  refine ⟨?_, ?_, ?_⟩
  · intro key r1 r2 hIfc hScope hMetric hDst hGw
    unfold EquivalentRoutes
    rw [if_neg (by simp [hIfc, hScope, hMetric])]
    have hNet : equalNetworks r1.DstNetwork r2.DstNetwork = true := by
      rcases hDst with hDst | ⟨n1, n2, h1, h2, h3, h4⟩
      · have hp : parseCIDR r1.DstNetwork = parseCIDR r2.DstNetwork := by
          rw [← parseCIDR_goToLower r1.DstNetwork, hDst, parseCIDR_goToLower]
        unfold equalNetworks
        cases h2 : parseCIDR r2.DstNetwork with
        | none => rw [hp, h2]; simp [hDst]
        | some n => rw [hp, h2]; simp [ipEqual_refl]
      · unfold equalNetworks
        rw [h1, h2]
        simp [h3, h4]
    rw [if_pos hNet]
    have hFam : isIPv6Str r1.DstNetwork = isIPv6Str r2.DstNetwork := by
      rcases hDst with hDst | ⟨n1, n2, h1, h2, h3, h4⟩
      · rw [← isIPv6Str_goToLower r1.DstNetwork, hDst, isIPv6Str_goToLower]
      · rcases parseCIDRT_colon_facts h1 with ⟨hm1, hc1⟩ | ⟨hm1, hc1⟩ <;>
          rcases parseCIDRT_colon_facts h2 with ⟨hm2, hc2⟩ | ⟨hm2, hc2⟩
        · have e1 : isIPv6Str r1.DstNetwork = false := by
            rcases Bool.eq_false_or_eq_true (isIPv6Str r1.DstNetwork) with hb | hb
            · exact absurd ((colon_strToks_iff _).mpr hb) hc1
            · exact hb
          have e2 : isIPv6Str r2.DstNetwork = false := by
            rcases Bool.eq_false_or_eq_true (isIPv6Str r2.DstNetwork) with hb | hb
            · exact absurd ((colon_strToks_iff _).mpr hb) hc2
            · exact hb
          rw [e1, e2]
        · rw [h4] at hm1; omega
        · rw [h4] at hm1; omega
        · rw [(colon_strToks_iff _).mp hc1, (colon_strToks_iff _).mp hc2]
    by_cases hg1 : r1.GwAddr = ""
    · have hg2 : r2.GwAddr = "" := by
        rw [hg1] at hGw
        exact (goToLower_empty_iff _).mp hGw.symm
      rw [getGwAddr, getGwAddr, if_pos hg1, if_pos hg2, hFam]
      cases isIPv6Str r2.DstNetwork <;> exact equalAddrs_refl _
    · have hg2 : r2.GwAddr ≠ "" := by
        intro h2
        rw [h2] at hGw
        exact hg1 ((goToLower_empty_iff _).mp hGw)
      rw [getGwAddr, getGwAddr, if_neg hg1, if_neg hg2]
      have hp : parseIP r1.GwAddr = parseIP r2.GwAddr := by
        rw [← parseIP_goToLower r1.GwAddr, hGw, parseIP_goToLower]
      unfold equalAddrs
      cases h2 : parseIP r2.GwAddr with
      | none => rw [hp, h2]; simp [hGw]
      | some x => rw [hp, h2]; simp [ipEqual_refl]
  · intro a1 a2 h
    unfold equalAddrs
    rcases h with h | h
    · rw [h]
      cases h2 : parseIP a2 <;> simp [beq_iff_eq]
    · rw [h]
      cases h1 : parseIP a1 <;> simp [beq_iff_eq]
  · intro d1 d2 h
    unfold equalNetworks
    rcases h with h | h
    · rw [h]
      cases h2 : parseCIDR d2 <;> simp [beq_iff_eq]
    · rw [h]
      cases h1 : parseCIDR d1 <;> simp [beq_iff_eq]

/-- C5 (witness): two routes differing only in the hexadecimal letter case of
their (IPv6) destination network and gateway address are equivalent. -/
theorem equivalentRoutes_witness :
    EquivalentRoutes "key" c5route1 c5route2 = true :=
  equivalentRoutes_representation_insensitive.1 "key" c5route1 c5route2 rfl rfl rfl
    (Or.inl (by decide)) (by decide)

/-- C6: the stride-based index slices of the Dump workers (worker `i` of `N`
handles unit indices `i, i+N, i+2N, …`) are pairwise disjoint, cover exactly
the indices `0 … L-1`, and contain no duplicates, for every worker count
`N ≥ 1` and unit-list length `L`. -/
theorem dump_stride_partition_exact (N L : Nat) (hN : 1 ≤ N) :
    (∀ i j, i < N → j < N → i ≠ j →
      ∀ k, k ∈ strideIndices i N L → k ∉ strideIndices j N L)
    ∧ (∀ k, k < L ↔ ∃ i, i < N ∧ k ∈ strideIndices i N L)
    ∧ (∀ i, i < N → (strideIndices i N L).Nodup) := by
  have hN0 : N ≠ 0 := by omega
  refine ⟨?_, ?_, ?_⟩
  · intro i j hi hj hij k hk hk2
    rw [strideIndices_mem_lt hN0 hi] at hk
    rw [strideIndices_mem_lt hN0 hj] at hk2
    exact hij (hk.2 ▸ hk2.2)
  · intro k
    constructor
    · intro hk
      exact ⟨k % N, Nat.mod_lt k (by omega),
        (strideIndices_mem_lt hN0 (Nat.mod_lt k (by omega))).mpr ⟨hk, rfl⟩⟩
    · rintro ⟨i, hi, hk⟩
      exact ((strideIndices_mem_lt hN0 hi).mp hk).1
  · intro i _
    exact strideIndices_nodup hN0 i L

/-- C6 (witness): the partition theorem applied at worker count 3 and list
length 10. -/
theorem dump_stride_partition_witness :
    1 ≤ 3 ∧ (4 ∈ strideIndices 1 3 10 → 4 ∉ strideIndices 0 3 10) :=
  ⟨by decide, fun h => (dump_stride_partition_exact 3 10 (by decide)).1 1 0
    (by decide) (by decide) (by decide) 4 h⟩

/-- C7 (counterexample): the claim says Dump waits for all workers,
concatenates the routes they discovered and never discards already-gathered
items.  In the arrival order `sampleArrival` the second worker had gathered
`kvB` before hitting its fatal error, and a third worker gathered `kvC`;
the collection loop returns after the second result with only `kvA`, so both
`kvB` and `kvC` — routes that were discovered — are missing from the output. -/
theorem dump_collect_discards_cex :
    RouteDescriptor.collectDumps sampleArrival = ([kvA], some (.unknownErr 0))
    ∧ kvB ∈ (sampleArrival.map routeDump.routes).flatten
    ∧ kvB ∉ (RouteDescriptor.collectDumps sampleArrival).1
    ∧ kvC ∈ (sampleArrival.map routeDump.routes).flatten
    ∧ kvC ∉ (RouteDescriptor.collectDumps sampleArrival).1 := by
  refine ⟨by decide, by decide, by decide, by decide, by decide⟩

/-- C7 (amended): the collection loop of Dump, over the worker results in
arrival order, concatenates all discovered routes and reports no error when
no result carries one; when a result carries a fatal error, it returns that
first error together with exactly the routes of the results received before
it — the erroring worker's own partial routes and all later results are
dropped. -/
theorem dump_collect_characterization :
    (∀ ds : List routeDump, (∀ x ∈ ds, x.err = none) →
      RouteDescriptor.collectDumps ds = ((ds.map routeDump.routes).flatten, none))
    ∧ (∀ (ds1 : List routeDump) (d : routeDump) (ds2 : List routeDump) (e : GoError),
        (∀ x ∈ ds1, x.err = none) → d.err = some e →
        RouteDescriptor.collectDumps (ds1 ++ d :: ds2)
          = ((ds1.map routeDump.routes).flatten, some e)) := by
  constructor
  · intro ds
    induction ds with
    | nil => intro _; rfl
    | cons d ds ih =>
      intro h
      have hd : d.err = none := h d (List.mem_cons_self d ds)
      have ht : ∀ x ∈ ds, x.err = none := fun x hx => h x (List.mem_cons_of_mem d hx)
      simp [RouteDescriptor.collectDumps, hd, ih ht]
  · intro ds1 d ds2 e h1 hd
    induction ds1 with
    | nil => simp [RouteDescriptor.collectDumps, hd]
    | cons x xs ih =>
      have hx : x.err = none := h1 x (List.mem_cons_self x xs)
      have ht : ∀ y ∈ xs, y.err = none := fun y hy => h1 y (List.mem_cons_of_mem x hy)
      simp [RouteDescriptor.collectDumps, hx, ih ht]

/-- C7 (witness): the error-path characterization evaluated at the concrete
arrival order. -/
theorem dump_collect_witness :
    RouteDescriptor.collectDumps
        ([⟨[kvA], none⟩] ++ (⟨[kvB], some (.unknownErr 0)⟩ : routeDump) :: [⟨[kvC], none⟩])
      = ((([⟨[kvA], none⟩] : List routeDump).map routeDump.routes).flatten,
         some (.unknownErr 0)) :=
  dump_collect_characterization.2 [⟨[kvA], none⟩] ⟨[kvB], some (.unknownErr 0)⟩
    [⟨[kvC], none⟩] (.unknownErr 0) (by decide) rfl

/-- C8 (counterexample): punt-to-host `Dump` is not a full enumeration of the
real, currently-existing punt objects: with one object existing it still
returns the empty list, differing from the spec's Dump contract. -/
theorem puntDump_not_full_enumeration_cex :
    PuntToHostDescriptor.Dump [] ≠ specContractPuntDump [samplePuntKV] [] := by
  decide

/-- C8 (amended): for every correlate argument, punt-to-host `Dump` returns
the empty list with no error — the dump is not supported by the VPP API and
the implementation documents it as such. -/
theorem puntDump_returns_empty (correlate : List PuntToHostKVWithMetadata) :
    PuntToHostDescriptor.Dump correlate = ([], none) := rfl

/-- C9: punt-to-host `Delete` of a value with an empty `SocketPath` is an
explicit no-op success — nil error, no handler call; with a non-empty
`SocketPath` it performs exactly the socket deregistration and surfaces the
handler's error. -/
theorem puntDelete_noop_or_deregister (env : PuntEnv) (key : String)
    (p : ToHost) (meta : Unit) :
    (p.SocketPath = "" → PuntToHostDescriptor.Delete env key p meta = (none, []))
    ∧ (p.SocketPath ≠ "" →
        PuntToHostDescriptor.Delete env key p meta
          = (env.deregisterSocketResult p, [.deregisterPuntSocket p])) := by
  constructor <;> intro h <;> simp [PuntToHostDescriptor.Delete, h]

/-- C9 (witness). -/
theorem puntDelete_witness :
    PuntToHostDescriptor.Delete samplePuntEnv "k" puntNoSocket () = (none, [])
    ∧ PuntToHostDescriptor.Delete samplePuntEnv "k" puntWithSocket ()
        = (samplePuntEnv.deregisterSocketResult puntWithSocket,
           [.deregisterPuntSocket puntWithSocket]) :=
  ⟨(puntDelete_noop_or_deregister samplePuntEnv "k" puntNoSocket ()).1 rfl,
   (puntDelete_noop_or_deregister samplePuntEnv "k" puntWithSocket ()).2 (by decide)⟩

/-- C10: an absent gateway is canonicalized to the all-zeros address of the
destination's IP family: a route with `GwAddr = ""` is equivalent to the same
route with `GwAddr = "0.0.0.0"` when the destination network is IPv4 (no
colon in the network string) and to the same route with `GwAddr = "::"` when
it is IPv6; and under the same defaulting an empty gateway, being
unspecified, yields no gateway-reachability dependency. -/
theorem gw_defaulting_equiv_and_deps :
    (∀ (key : String) (r : StaticRoute), r.GwAddr = "" →
      isIPv6Str r.DstNetwork = false →
      EquivalentRoutes key r { r with GwAddr := ipv4AddrAny } = true)
    ∧ (∀ (key : String) (r : StaticRoute), r.GwAddr = "" →
      isIPv6Str r.DstNetwork = true →
      EquivalentRoutes key r { r with GwAddr := ipv6AddrAny } = true)
    ∧ (∀ (key : String) (r : StaticRoute), r.GwAddr = "" →
      ∀ d ∈ RouteDescriptor.Dependencies key r, d.Label ≠ routeGwReachabilityDep) := by
  refine ⟨?_, ?_, ?_⟩
  · intro key r hgw hfam
    unfold EquivalentRoutes
    rw [if_neg (by simp)]
    rw [if_pos (equalNetworks_refl _)]
    have h1 : getGwAddr r = ipv4AddrAny := by
      rw [getGwAddr, if_pos hgw, hfam]
      simp
    have h2 : getGwAddr { r with GwAddr := ipv4AddrAny } = ipv4AddrAny := by
      rw [getGwAddr]
      simp [ipv4AddrAny]
    rw [h1, h2]
    exact equalAddrs_refl _
  · intro key r hgw hfam
    unfold EquivalentRoutes
    rw [if_neg (by simp)]
    rw [if_pos (equalNetworks_refl _)]
    have h1 : getGwAddr r = ipv6AddrAny := by
      rw [getGwAddr, if_pos hgw, hfam]
      simp
    have h2 : getGwAddr { r with GwAddr := ipv6AddrAny } = ipv6AddrAny := by
      rw [getGwAddr]
      simp [ipv6AddrAny]
    rw [h1, h2]
    exact equalAddrs_refl _
  · intro key r hgw d hd
    unfold RouteDescriptor.Dependencies at hd
    rw [getGwAddr, if_pos hgw] at hd
    cases hfam : isIPv6Str r.DstNetwork <;> rw [hfam] at hd
    · simp only [Bool.false_eq_true, if_false,
        show parseIP ipv4AddrAny = some ipv4Zero from by decide,
        show ipIsUnspecified ipv4Zero = true from by decide, eq_self_iff_true,
        if_true, List.append_nil] at hd
      split at hd
      · rcases List.mem_singleton.mp hd with rfl
        exact (by decide : routeOutInterfaceDep ≠ routeGwReachabilityDep)
      · simp at hd
    · simp only [eq_self_iff_true, if_true,
        show parseIP ipv6AddrAny = some ipv6Unspecified from by decide,
        show ipIsUnspecified ipv6Unspecified = true from by decide,
        List.append_nil] at hd
      split at hd
      · rcases List.mem_singleton.mp hd with rfl
        exact (by decide : routeOutInterfaceDep ≠ routeGwReachabilityDep)
      · simp at hd

/-- C10 (witness): an IPv4-destination route with an absent gateway is
equivalent to the same route with gateway `0.0.0.0`, and declares no
gateway-reachability dependency. -/
theorem gw_defaulting_witness :
    c10route.GwAddr = "" ∧ isIPv6Str c10route.DstNetwork = false
    ∧ EquivalentRoutes "key" c10route { c10route with GwAddr := ipv4AddrAny } = true :=
  ⟨rfl, by decide,
   gw_defaulting_equiv_and_deps.1 "key" c10route rfl (by decide)⟩
